import Mathlib

/-!
Shallow embedding of the wallet / exchange-protocol subsystem of the
Trading-Agent repository, and proofs about it.

Files embedded:
- `src/wallet/permission_controller.py` (PermissionController)
- `src/wallet/signature_engine.py`      (nonce sequencing)
- `src/wallet/wallet_registry.py`       (bounded activity logs)
- `src/hyperliquid/types.py`            (asset id directory)
- `src/hyperliquid/client.py`           (create_order_action)
- `src/hyperliquid/signing.py`          (sign_user_action / sign_l1_action)
- `src/hyperliquid/websocket.py`        (subscription tracking / reconnect)

Python numbers relevant to the claims are embedded as tagged int/rational
values (`PyNum`); `float` rendering is exact for integral values, which is
the only case the claims exercise.
-/

/-- A Python number as it occurs in parameter dicts: either an `int` or a
`float`.  Floats are modelled as exact rationals; every numeric value the
claims exercise is integral, where this model agrees with IEEE doubles. -/
inductive PyNum where
  | pint (n : ℤ)
  | pfloat (q : ℚ)
deriving DecidableEq

/-- Numeric value of a `PyNum`. -/
def PyNum.toQ : PyNum → ℚ
  | .pint n => (n : ℚ)
  | .pfloat q => q

/-- Python `*` on numbers: int*int stays int, anything with a float is float. -/
def PyNum.mul : PyNum → PyNum → PyNum
  | .pint a, .pint b => .pint (a * b)
  | a, b => .pfloat (a.toQ * b.toQ)

/-- Python `str()` of a float; exact for integral values (`50000.0`), the only
case the embedded reason strings ever hit.  Non-integral floats are rendered
as `num/den`, an approximation of Python's shortest-repr never exercised. -/
def pyFloatStr (q : ℚ) : String :=
  if q.den = 1 then toString q.num ++ ".0"
  else toString q.num ++ "/" ++ toString q.den

/-- Python `str()` of a `PyNum`. -/
def PyNum.str : PyNum → String
  | .pint n => toString n
  | .pfloat q => pyFloatStr q

/-- A `params` dict as passed to `validate_action`: string keys to numbers
(the only parameter values the permission logic reads). -/
def Params := List (String × PyNum)

/-- Python `params.get(key, default)`. -/
def Params.get (p : Params) (key : String) (default : PyNum) : PyNum :=
  match List.find? (fun q => q.1 == key) p with
  | some q => q.2
  | none => default

/-- Environment-derived configuration of `PermissionController.__init__`:
the numeric fields of `permission_levels` and `global_risk_limits`. -/
structure PCConfig where
  maxLeverageTrading : ℚ
  maxPositionSizeTrading : ℚ
  maxLeverageFull : ℚ
  maxPositionSizeFull : ℚ
  maxTotalExposure : ℚ
  maxDailyLoss : ℚ
  maxConcurrentPositions : ℕ
  requireAiConfirmation : Bool
deriving DecidableEq

/-- The defaults of `permission_controller.py` when no environment variable
overrides them (`MAX_LEVERAGE=10/50`, `MAX_POSITION_SIZE_USD=1000/10000`,
`MAX_TOTAL_EXPOSURE=50000`, `MAX_DAILY_LOSS=1000`,
`REQUIRE_AI_CONFIRMATION=true`). -/
def defaultPCConfig : PCConfig :=
  { maxLeverageTrading := 10
    maxPositionSizeTrading := 1000
    maxLeverageFull := 50
    maxPositionSizeFull := 10000
    maxTotalExposure := 50000
    maxDailyLoss := 1000
    maxConcurrentPositions := 10
    requireAiConfirmation := true }

/-- `permission_levels[level]["allowed_actions"]`; an unrecognised level has
no configuration and contributes no actions (`.get(perm_level, {})`). -/
def allowedActionsOf : String → List String
  | "read_only" =>
      ["get_positions", "get_balance", "get_account_value", "get_data"]
  | "trading" =>
      ["get_positions", "get_balance", "get_account_value", "get_data",
       "place_order", "cancel_order", "modify_order", "close_position",
       "update_leverage", "update_margin"]
  | "full_access" =>
      ["*", "transfer_funds", "withdraw", "deposit", "send_asset",
       "approve_wallet", "manage_permissions"]
  | _ => []

/-- Result of `_check_permissions` / `_check_risk_limits`: an
`{"allowed": ..., "reason": ..., [risk_level]}` dict. -/
structure CheckResult where
  allowed : Bool
  reason : String
  riskLevel : Option String
deriving DecidableEq

/-- `PermissionController._check_permissions`.  The loop returns early with
"Full access granted" at the first grant whose action list holds `"*"`;
otherwise it unions the action lists and tests membership.  (The denial
reason in the source also prints the aggregated Python set, whose iteration
order is unspecified; the prefix is kept and the set rendering is not
modelled — no claim reads this string.) -/
def checkPermissions (action : String) (walletPermissions : List String) :
    CheckResult :=
  if walletPermissions.any (fun p => (allowedActionsOf p).contains "*") then
    { allowed := true, reason := "Full access granted", riskLevel := none }
  else if walletPermissions.any (fun p => (allowedActionsOf p).contains action) then
    { allowed := true, reason := "Action permitted", riskLevel := none }
  else
    { allowed := false
      reason := "Action '" ++ action ++ "' not permitted."
      riskLevel := none }

/-- `PermissionController._check_risk_limits`.  Trading actions compare
`size * leverage` against `max_total_exposure`; fund movements compare
`amount` against `max_daily_loss`. -/
def checkRiskLimits (cfg : PCConfig) (action : String) (params : Params) :
    CheckResult :=
  if action == "place_order" || action == "modify_order" then
    let size := params.get "size" (.pint 0)
    let leverage := params.get "leverage" (.pint 1)
    let exposure := size.mul leverage
    if exposure.toQ > cfg.maxTotalExposure then
      { allowed := false
        reason := "Position size $" ++ exposure.str ++ " exceeds limit $"
          ++ pyFloatStr cfg.maxTotalExposure
        riskLevel := some "high" }
    else
      { allowed := true, reason := "Risk limits OK", riskLevel := none }
  else if action == "withdraw" || action == "transfer_funds"
      || action == "send_asset" then
    let amount := params.get "amount" (.pint 0)
    if amount.toQ > cfg.maxDailyLoss then
      { allowed := false
        reason := "Amount $" ++ amount.str ++ " exceeds daily limit $"
          ++ pyFloatStr cfg.maxDailyLoss
        riskLevel := some "high" }
    else
      { allowed := true, reason := "Risk limits OK", riskLevel := none }
  else
    { allowed := true, reason := "Risk limits OK", riskLevel := none }

/-- `PermissionController._requires_ai_confirmation`. -/
def requiresAiConfirmation (cfg : PCConfig) (action : String)
    (params : Params) : Bool :=
  if !cfg.requireAiConfirmation then false
  else if ["withdraw", "transfer_funds", "send_asset", "approve_wallet",
      "manage_permissions"].contains action then true
  else if action == "place_order" || action == "modify_order" then
    let size := params.get "size" (.pint 0)
    let leverage := params.get "leverage" (.pint 1)
    decide ((size.mul leverage).toQ > 5000)
  else false

/-- `PermissionController._get_action_risk_level`. -/
def getActionRiskLevel (action : String) (params : Params) : String :=
  if ["withdraw", "transfer_funds", "send_asset", "approve_wallet"].contains
      action then "high"
  else if ["place_order", "modify_order", "update_leverage"].contains action then
    let size := params.get "size" (.pint 0)
    let leverage := params.get "leverage" (.pint 1)
    if (size.mul leverage).toQ > 2000 then "high" else "medium"
  else "low"

/-- The dict `_get_action_limits` fills for the highest held level. -/
structure ActionLimits where
  maxLeverage : ℚ
  maxPositionSize : ℚ
  riskLevel : String
deriving DecidableEq

/-- `PermissionController._get_action_limits`: the numeric limits of the
highest permission level held, or the empty dict (`none`). -/
def getActionLimits (cfg : PCConfig) (walletPermissions : List String) :
    Option ActionLimits :=
  if walletPermissions.contains "full_access" then
    some { maxLeverage := cfg.maxLeverageFull
           maxPositionSize := cfg.maxPositionSizeFull
           riskLevel := "high" }
  else if walletPermissions.contains "trading" then
    some { maxLeverage := cfg.maxLeverageTrading
           maxPositionSize := cfg.maxPositionSizeTrading
           riskLevel := "medium" }
  else if walletPermissions.contains "read_only" then
    some { maxLeverage := 1, maxPositionSize := 0, riskLevel := "low" }
  else none

/-- The dict returned by `validate_action`; keys absent from a given return
branch are `none`. -/
structure ValidationResult where
  allowed : Bool
  requiresAi : Option Bool
  reason : Option String
  riskLevel : Option String
  limits : Option (Option ActionLimits)
deriving DecidableEq

/-- `PermissionController.validate_action`: permission check, then risk
check, then AI-confirmation flag.  (The `try/except` wrapper is dead in this
model: no embedded step raises.) -/
def validateAction (cfg : PCConfig) (_walletAddress : String) (action : String)
    (params : Params) (walletPermissions : List String) : ValidationResult :=
  let permissionCheck := checkPermissions action walletPermissions
  if !permissionCheck.allowed then
    { allowed := false
      requiresAi := none
      reason := some permissionCheck.reason
      riskLevel := some "blocked"
      limits := none }
  else
    let riskCheck := checkRiskLimits cfg action params
    if !riskCheck.allowed then
      { allowed := false
        requiresAi := none
        reason := some riskCheck.reason
        riskLevel := riskCheck.riskLevel
        limits := none }
    else if requiresAiConfirmation cfg action params then
      { allowed := true
        requiresAi := some true
        reason := some "Action requires AI confirmation"
        riskLevel := some "high"
        limits := none }
    else
      { allowed := true
        requiresAi := some false
        reason := none
        riskLevel := some (getActionRiskLevel action params)
        limits := some (getActionLimits cfg walletPermissions) }

/-- The `result` dict handed to `log_action`; the source reads only
`result.get("success", False)` and `result.get("risk_level", "unknown")`. -/
structure ResultDict where
  success : Option Bool
  riskLevel : Option String
deriving DecidableEq

/-- `result.get("success", False)`. -/
def ResultDict.successD (r : ResultDict) : Bool := r.success.getD false

/-- `result.get("risk_level", "unknown")`. -/
def ResultDict.riskLevelD (r : ResultDict) : String := r.riskLevel.getD "unknown"

/-- One entry of `PermissionController.action_log`. -/
structure LogEntry where
  timestamp : String
  walletAddress : String
  agentName : Option String
  action : String
  params : Params
  result : ResultDict
  riskLevel : String

/-- `PermissionController.daily_stats`. -/
structure DailyStats where
  date : String
  totalTrades : ℕ
  totalVolume : ℚ
  totalPnl : ℚ
  maxLoss : ℚ

/-- Fresh `daily_stats` for a day. -/
def freshStats (today : String) : DailyStats :=
  { date := today, totalTrades := 0, totalVolume := 0, totalPnl := 0
    maxLoss := 0 }

/-- Mutable state of a `PermissionController`: the audit log and the rolling
daily statistics. -/
structure PCState where
  actionLog : List LogEntry
  dailyStats : DailyStats

/-- `PermissionController._update_daily_stats` (`today` passes the wall
clock's current date in). -/
def updateDailyStats (today : String) (action : String) (params : Params)
    (result : ResultDict) (stats : DailyStats) : DailyStats :=
  let stats := if stats.date != today then freshStats today else stats
  let stats :=
    if (action == "place_order" || action == "modify_order")
        && result.successD then
      { stats with
          totalTrades := stats.totalTrades + 1
          totalVolume := stats.totalVolume + (params.get "size" (.pint 0)).toQ }
    else stats
  if action == "close_position" then
    let pnl := (params.get "pnl" (.pint 0)).toQ
    { stats with
        totalPnl := stats.totalPnl + pnl
        maxLoss := if pnl < 0 then min stats.maxLoss pnl else stats.maxLoss }
  else stats

/-- Python `l[-n:]`: the last `n` elements of a list. -/
def takeLast (n : ℕ) (l : List α) : List α := l.drop (l.length - n)

/-- The log entry `log_action` builds (`now` passes `datetime.now()` in). -/
def mkLogEntry (now walletAddress : String) (agentName : Option String)
    (action : String) (params : Params) (result : ResultDict) : LogEntry :=
  { timestamp := now
    walletAddress := walletAddress
    agentName := agentName
    action := action
    params := params
    result := result
    riskLevel := result.riskLevelD }

/-- `PermissionController.log_action`: append the entry, update the daily
stats, and trim the log to its 1000 most recent entries. -/
def logAction (now today : String) (s : PCState) (walletAddress : String)
    (action : String) (params : Params) (result : ResultDict)
    (agentName : Option String) : PCState :=
  let log := s.actionLog ++ [mkLogEntry now walletAddress agentName action
    params result]
  { actionLog := if log.length > 1000 then takeLast 1000 log else log
    dailyStats := updateDailyStats today action params result s.dailyStats }

/-- `validate_action` viewed as a call on a live controller: it returns the
validation dict and leaves the controller's mutable state exactly as it was —
the method body reads `self.permission_levels` and `self.global_risk_limits`
and writes nothing. -/
def validateActionCall (cfg : PCConfig) (s : PCState) (walletAddress : String)
    (action : String) (params : Params) (walletPermissions : List String) :
    ValidationResult × PCState :=
  (validateAction cfg walletAddress action params walletPermissions, s)

/-!  `src/wallet/signature_engine.py`: nonce sequencing.
`self.current_nonce` is seeded from wall-clock milliseconds and only ever
raised. -/

/-- `SignatureEngine.get_next_nonce`: return the counter, then increment. -/
def getNextNonce (s : ℕ) : ℕ × ℕ := (s, s + 1)

/-- `SignatureEngine.reset_nonce`:
`self.current_nonce = max(self.current_nonce, nonce + 1)`. -/
def resetNonce (nonce : ℕ) (s : ℕ) : ℕ := max s (nonce + 1)

/-- The nonces produced by `n` sequential `get_next_nonce` calls starting
from counter value `s`. -/
def issuedNonces (s : ℕ) : ℕ → List ℕ
  | 0 => []
  | n + 1 =>
    let (v, s') := getNextNonce s
    v :: issuedNonces s' n

/-!  `src/wallet/wallet_registry.py`: per-wallet bounded activity logs. -/

/-- One entry of `approved_actions` / `blocked_actions`. -/
structure ActivityEntry where
  timestamp : String
  action : String
  success : Bool
  details : List (String × String)

/-- The per-wallet record kept in `registry["wallets"]` (the fields
`log_wallet_activity` touches, plus the activity counters). -/
structure WalletEntry where
  lastActivity : Option String
  activityCount : ℕ
  approvedActions : List ActivityEntry
  blockedActions : List ActivityEntry

/-- The fresh entry `register_wallet` creates: empty activity logs. -/
def registerWalletEntry : WalletEntry :=
  { lastActivity := none, activityCount := 0, approvedActions := []
    blockedActions := [] }

/-- `WalletRegistry.log_wallet_activity` on one wallet record (`now` passes
`datetime.now()` in): stamp the activity, append the entry to the approved or
blocked log, and trim that log to its cap (100 approved / 50 blocked). -/
def logWalletActivity (now : String) (w : WalletEntry) (action : String)
    (success : Bool) (details : List (String × String)) : WalletEntry :=
  let entry : ActivityEntry :=
    { timestamp := now, action := action, success := success
      details := details }
  let w1 := { w with lastActivity := some now
                     activityCount := w.activityCount + 1 }
  if success then
    let log := w1.approvedActions ++ [entry]
    { w1 with approvedActions := if log.length > 100 then takeLast 100 log
        else log }
  else
    let log := w1.blockedActions ++ [entry]
    { w1 with blockedActions := if log.length > 50 then takeLast 50 log
        else log }

/-- One `log_wallet_activity` call: timestamp, action, outcome, details. -/
structure ActivityCall where
  now : String
  action : String
  success : Bool
  details : List (String × String)

/-- A sequence of `log_wallet_activity` calls against one wallet record. -/
def runActivityCalls (w : WalletEntry) (calls : List ActivityCall) :
    WalletEntry :=
  calls.foldl (fun w c => logWalletActivity c.now w c.action c.success
    c.details) w

/-- The registry-level bound the spec states: at most the 100 most recent
approved and 50 most recent blocked entries. -/
def activityBounded (w : WalletEntry) : Prop :=
  w.approvedActions.length ≤ 100 ∧ w.blockedActions.length ≤ 50

instance : DecidablePred activityBounded := fun _ =>
  inferInstanceAs (Decidable (_ ∧ _))

/-!  `src/hyperliquid/types.py`: the asset directory.
`ASSET_IDS` is written as a dict literal with duplicate keys (`"TIA"` twice,
`"ENA"` seventeen times); Python keeps the first insertion position of a key
and its last assigned value.  The literal is embedded verbatim and the dict
is built by that rule. -/

/-- The `ASSET_IDS` dict literal of `types.py`, in source order, duplicate
keys included. -/
def ASSET_IDS_literal : List (String × ℕ) :=
  [("BTC", 0), ("ETH", 1), ("SOL", 2), ("ARB", 3), ("APE", 4), ("AVAX", 5),
   ("BNB", 6), ("DOGE", 7), ("FTM", 8), ("GMX", 9), ("LINK", 10),
   ("LTC", 11), ("NEAR", 12), ("OP", 13), ("ORDI", 14), ("PEPE", 15),
   ("SHIB", 16), ("SUI", 17), ("SUSHI", 18), ("TIA", 19), ("TRX", 20),
   ("UNI", 21), ("WLD", 22), ("XRP", 23), ("ZKS", 24), ("SEI", 25),
   ("INJ", 26), ("STX", 27), ("FIL", 28), ("ETC", 29), ("CFX", 30),
   ("ICP", 31), ("APT", 32), ("IMX", 33), ("GALA", 34), ("XLM", 35),
   ("DOT", 36), ("ADA", 37), ("MATIC", 38), ("ATOM", 39), ("LDO", 40),
   ("ONDO", 41), ("ALT", 42), ("JTO", 43), ("ZRO", 44), ("ENA", 45),
   ("WIF", 46), ("TIA", 47), ("MERL", 48), ("PYTH", 49), ("REZ", 50),
   ("STRK", 51), ("TON", 52), ("AXL", 53), ("MYRO", 54), ("MEW", 55),
   ("AUCTION", 56), ("RARI", 57), ("BOME", 58), ("PNUT", 59),
   ("MOTHER", 60), ("GRIFFAIN", 61), ("AI16Z", 62), ("FARTCOIN", 63),
   ("GOAT", 64), ("HYPER", 65), ("TURBO", 66), ("ZEREBRO", 67),
   ("POPCAT", 68), ("CUMMIES", 69), ("S", 70), ("AIXBT", 71), ("SPX", 72),
   ("KMNO", 73), ("MOODENG", 74), ("BANANA", 75), ("PONKE", 76),
   ("SSB", 77), ("KAIA", 78), ("CETUS", 79), ("KAS", 80), ("BEAM", 81),
   ("CAKE", 82), ("ENA", 83), ("ENA", 84), ("ENA", 85), ("ENA", 86),
   ("ENA", 87), ("ENA", 88), ("ENA", 89), ("ENA", 90), ("ENA", 91),
   ("ENA", 92), ("ENA", 93), ("ENA", 94), ("ENA", 95), ("ENA", 96),
   ("ENA", 97), ("ENA", 98), ("ENA", 99)]

/-- Python dict assignment `d[k] = v`: overwrite in place if the key exists
(keeping its insertion position), else append. -/
def pyDictSet (d : List (String × α)) (k : String) (v : α) :
    List (String × α) :=
  if d.any (fun p => p.1 == k) then
    d.map (fun p => if p.1 == k then (k, v) else p)
  else d ++ [(k, v)]

/-- A Python dict literal: assignments applied left to right. -/
def pyDictOfList (l : List (String × α)) : List (String × α) :=
  l.foldl (fun d p => pyDictSet d p.1 p.2) []

/-- Python `d.get(k, default)`. -/
def pyDictGet (d : List (String × α)) (k : String) (default : α) : α :=
  match d.find? (fun p => p.1 == k) with
  | some p => p.2
  | none => default

/-- The `ASSET_IDS` dict as Python sees it: last value per key, keys in
first-insertion order. -/
def ASSET_IDS : List (String × ℕ) := pyDictOfList ASSET_IDS_literal

/-- `SPOT_ASSET_OFFSET`. -/
def SPOT_ASSET_OFFSET : ℕ := 10000

/-- The `spot_indices` placeholder dict inside `get_asset_id`. -/
def spot_indices : List (String × ℕ) := [("PURR/USDC", 0), ("HYPE/USDC", 1)]

/-- The `spot_symbols` dict inside `get_symbol_from_asset_id`. -/
def spot_symbols : List (ℕ × String) := [(0, "PURR/USDC"), (1, "HYPE/USDC")]

/-- Python `str.upper()` (ASCII, which covers every directory symbol):
uppercase each character. -/
def pyUpper (s : String) : String := String.mk (s.data.map Char.toUpper)

/-- `types.get_asset_id(symbol, is_spot)`: spot symbols map through
`spot_indices` plus the offset (default index 0); otherwise the uppercased
symbol is looked up in `ASSET_IDS` with default 0. -/
def get_asset_id (symbol : String) (is_spot : Bool) : ℕ :=
  if is_spot then SPOT_ASSET_OFFSET + pyDictGet spot_indices symbol 0
  else pyDictGet ASSET_IDS (pyUpper symbol) 0

/-- `types.get_symbol_from_asset_id(asset_id)`: ids at or above the offset
resolve through `spot_symbols` with a `SPOT_<i>` fallback; lower ids scan
`ASSET_IDS.items()` for the first matching value, `UNKNOWN_<id>` fallback. -/
def get_symbol_from_asset_id (asset_id : ℕ) : String :=
  if asset_id ≥ SPOT_ASSET_OFFSET then
    let spot_index := asset_id - SPOT_ASSET_OFFSET
    match spot_symbols.find? (fun p => p.1 == spot_index) with
    | some p => p.2
    | none => "SPOT_" ++ toString spot_index
  else
    match ASSET_IDS.find? (fun p => p.2 == asset_id) with
    | some p => p.1
    | none => "UNKNOWN_" ++ toString asset_id

/-!  A small model of Python/JSON values, used for the wire payloads of
`client.py` and `signing.py`. -/

/-- A Python value as it appears in the JSON payloads the client builds. -/
inductive PyVal where
  | vstr (s : String)
  | vint (n : ℤ)
  | vbool (b : Bool)
  | vnum (x : PyNum)
  | vlist (xs : List PyVal)
  | vdict (entries : List (String × PyVal))

/-!  `src/hyperliquid/client.py`: `HyperliquidClient.create_order_action`. -/

/-- `HyperliquidClient.create_order_action`: a pure function from asset id,
side, price, size, reduce-only flag and time-in-force to the exchange's
order-action payload; `price` and `size` pass through Python `str()`. -/
def create_order_action (asset_id : ℤ) (is_buy : Bool) (price size : PyNum)
    (reduce_only : Bool) (time_in_force : String) : PyVal :=
  let order : PyVal := .vdict
    [("a", .vint asset_id),
     ("b", .vbool is_buy),
     ("p", .vstr price.str),
     ("s", .vstr size.str),
     ("r", .vbool reduce_only),
     ("t", .vdict [((if time_in_force != "Market" then "limit" else "market"),
        .vdict [("tif", .vstr time_in_force)])])]
  .vdict [("type", .vstr "order"), ("orders", .vlist [order]),
    ("grouping", .vstr "na")]

/-!  `src/hyperliquid/signing.py`: the module-level signing helpers.
The external library calls (`json.dumps`, `hashlib.sha256`,
`eth_account`'s `sign_message` over `encode_defunct`) are parameters of the
embedding; both signing paths apply them to the same data. -/

/-- An `eth_account` account: its address and its
`sign_message(encode_defunct(primitive=...))` primitive, bytes to signature
bytes. -/
structure EthAccount where
  address : String
  signMessage : List ℕ → List ℕ

/-- The external primitives `signing.py` calls: canonical JSON serialization
(`json.dumps(..., separators=(",", ":"), sort_keys=True)` plus UTF-8
encoding) and `hashlib.sha256(...).digest()`. -/
structure SigningPrims where
  dumpsBytes : PyVal → List ℕ
  sha256 : List ℕ → List ℕ

/-- Lowercase-hex rendering of a byte string (`bytes.hex()`). -/
def bytesHex (bs : List ℕ) : String :=
  String.join (bs.map (fun b => (Nat.toDigits 16 (b / 16 % 16)).asString
    ++ (Nat.toDigits 16 (b % 16)).asString))

/-- The message dict both signing helpers build:
`{"action": action, "nonce": nonce}`. -/
def signingMessage (action : PyVal) (nonce : ℤ) : PyVal :=
  .vdict [("action", action), ("nonce", .vint nonce)]

/-- `signing.sign_user_action`: serialize `{"action", "nonce"}`, sha-256 it,
sign the hash, and return the `{"hash", "signature", "sender"}` dict. -/
def sign_user_action (prims : SigningPrims) (action : PyVal)
    (account : EthAccount) (nonce : ℤ) : List (String × String) :=
  let message := signingMessage action nonce
  let message_bytes := prims.dumpsBytes message
  let message_hash := prims.sha256 message_bytes
  let signature := account.signMessage message_hash
  [("hash", bytesHex message_hash),
   ("signature", bytesHex signature),
   ("sender", account.address)]

/-- `signing.sign_l1_action`: serialize `{"action", "nonce"}`, sha-256 it,
sign the hash, and return the `{"hash", "signature", "sender"}` dict. -/
def sign_l1_action (prims : SigningPrims) (action : PyVal)
    (account : EthAccount) (nonce : ℤ) : List (String × String) :=
  let message := signingMessage action nonce
  let message_bytes := prims.dumpsBytes message
  let message_hash := prims.sha256 message_bytes
  let signature := account.signMessage message_hash
  [("hash", bytesHex message_hash),
   ("signature", bytesHex signature),
   ("sender", account.address)]

/-- The serialized message each helper hashes. -/
def userActionMessageBytes (prims : SigningPrims) (action : PyVal)
    (nonce : ℤ) : List ℕ :=
  prims.dumpsBytes (signingMessage action nonce)

/-- The hash each helper signs. -/
def userActionHash (prims : SigningPrims) (action : PyVal) (nonce : ℤ) :
    List ℕ :=
  prims.sha256 (userActionMessageBytes prims action nonce)

/-!  `src/hyperliquid/websocket.py`: subscription tracking and the
reconnect path.  The socket itself, the receive/heartbeat loops and the
`asyncio.sleep` delay are external; what is modelled is the client's own
mutable state (`connected`, `reconnect_count`, `subscriptions`) and the
outbound messages it sends, on the success path of `websockets.connect`. -/

/-- A subscription payload: `{"type": ..., ["coin"| "user"]: ...}`. -/
structure WsSub where
  stype : String
  coin : Option String
  user : Option String
deriving DecidableEq

/-- The tracking key of `_subscribe`/`unsubscribe`:
`f"{type}_{subscription.get('coin', subscription.get('user', ''))}"`. -/
def wsSubKey (sub : WsSub) : String :=
  sub.stype ++ "_" ++ (sub.coin.getD (sub.user.getD ""))

/-- An outbound `{"method": ..., "subscription": ...}` frame. -/
structure WsOutMsg where
  method : String
  subscription : WsSub
deriving DecidableEq

/-- The client state `__init__` sets up, plus the trace of frames sent. -/
structure WsState where
  connected : Bool
  reconnectCount : ℕ
  subscriptions : List (String × WsSub)
  sent : List WsOutMsg
deriving DecidableEq

/-- The freshly constructed client. -/
def wsInit : WsState :=
  { connected := false, reconnectCount := 0, subscriptions := [], sent := [] }

/-- Python dict assignment for the subscription map (same rule as
`pyDictSet`, generic value type). -/
def wsDictSet (d : List (String × WsSub)) (k : String) (v : WsSub) :
    List (String × WsSub) :=
  if d.any (fun p => p.1 == k) then
    d.map (fun p => if p.1 == k then (k, v) else p)
  else d ++ [(k, v)]

/-- `HyperliquidWebSocket._subscribe`: refuse when disconnected; otherwise
send the subscribe frame and record the subscription under its key. -/
def wsSubscribe (s : WsState) (sub : WsSub) : Bool × WsState :=
  if !s.connected then (false, s)
  else
    (true,
     { s with
         sent := s.sent ++ [{ method := "subscribe", subscription := sub }]
         subscriptions := wsDictSet s.subscriptions (wsSubKey sub) sub })

/-- `HyperliquidWebSocket.connect`, success path: the socket opens,
`connected` is set and `reconnect_count` cleared.  No frame is sent and the
subscription map is not consulted. -/
def wsConnectOk (s : WsState) : WsState :=
  { s with connected := true, reconnectCount := 0 }

/-- `HyperliquidWebSocket._handle_reconnect`, with the spawned `connect`
succeeding: give up once `reconnect_count` reaches `max_reconnects`,
else bump the counter and reconnect. -/
def wsHandleReconnect (maxReconnects : ℕ) (s : WsState) : WsState :=
  if maxReconnects ≤ s.reconnectCount then s
  else wsConnectOk { s with reconnectCount := s.reconnectCount + 1 }

/-- The receive loop's reaction to a dropped connection
(`ConnectionClosedError`): clear `connected`, then `_handle_reconnect`
(whose `connect` succeeds here). -/
def wsConnectionDrop (maxReconnects : ℕ) (s : WsState) : WsState :=
  wsHandleReconnect maxReconnects { s with connected := false }

/-!  Concrete states and spec-side shapes used by the theorems below. -/

/-- The canonical wire shape of an order action as the spec describes it:
`{"type": "order", "orders": [o], "grouping": "na"}` with `o` under the
abbreviated field names `a`, `b`, `p`, `s`, `r`, `t` and price/size rendered
as strings (the `t` variant is keyed `limit`/`market` by the time-in-force,
as the wire protocol requires). -/
def canonicalOrderAction (asset_id : ℤ) (is_buy : Bool) (price size : PyNum)
    (reduce_only : Bool) (time_in_force : String) : PyVal :=
  .vdict
    [("type", .vstr "order"),
     ("orders", .vlist
       [.vdict
         [("a", .vint asset_id),
          ("b", .vbool is_buy),
          ("p", .vstr price.str),
          ("s", .vstr size.str),
          ("r", .vbool reduce_only),
          ("t", .vdict
            [((if time_in_force != "Market" then "limit" else "market"),
              .vdict [("tif", .vstr time_in_force)])])]]),
     ("grouping", .vstr "na")]

/-- The `trades`/`BTC` subscription of the reconnect scenario. -/
def tradesBtcSub : WsSub := { stype := "trades", coin := some "BTC", user := none }

/-- Streaming-client state after connecting and subscribing to `trades`/`BTC`. -/
def wsAfterSubscribe : WsState := (wsSubscribe (wsConnectOk wsInit) tradesBtcSub).2

/-- State after the connection then drops and the reconnect succeeds
(`max_reconnects` at its default 10). -/
def wsAfterReconnect : WsState := wsConnectionDrop 10 wsAfterSubscribe

/-- A freshly initialized controller state: empty action log. -/
def c1State : PCState :=
  { actionLog := [], dailyStats := freshStats "2026-02-03" }

/-!  Helper lemmas. -/

/-- Every nonce issued from counter value `s` is at least `s`. -/
theorem le_of_mem_issuedNonces :
    ∀ {n s x : ℕ}, x ∈ issuedNonces s n → s ≤ x := by
  intro n
  induction n with
  | zero => intro s x h; simp [issuedNonces] at h
  | succ n ih =>
    intro s x h
    simp only [issuedNonces, getNextNonce, List.mem_cons] at h
    rcases h with h | h
    · omega
    · have := ih h
      omega

/-- `takeLast` never returns more than `n` elements. -/
theorem takeLast_length_le (n : ℕ) (l : List α) : (takeLast n l).length ≤ n := by
  simp only [takeLast, List.length_drop]
  omega

/-- One `log_wallet_activity` call keeps both activity-log caps. -/
theorem logWalletActivity_bounded (now : String) (w : WalletEntry)
    (action : String) (success : Bool) (details : List (String × String))
    (h : activityBounded w) :
    activityBounded (logWalletActivity now w action success details) := by
  obtain ⟨h1, h2⟩ := h
  unfold logWalletActivity activityBounded
  cases success with
  | true =>
    simp only [reduceIte]
    refine ⟨?_, by simpa using h2⟩
    split
    · exact takeLast_length_le _ _
    · simp only [List.length_append, List.length_cons, List.length_nil] at *
      omega
  | false =>
    simp only [Bool.false_eq_true, reduceIte]
    refine ⟨by simpa using h1, ?_⟩
    split
    · exact takeLast_length_le _ _
    · simp only [List.length_append, List.length_cons, List.length_nil] at *
      omega

/-- The caps hold after any sequence of `log_wallet_activity` calls. -/
theorem runActivityCalls_bounded :
    ∀ (calls : List ActivityCall) (w : WalletEntry), activityBounded w →
      activityBounded (runActivityCalls w calls) := by
  intro calls
  induction calls with
  | nil => intro w h; exact h
  | cons c cs ih =>
    intro w h
    exact ih _ (logWalletActivity_bounded c.now w c.action c.success c.details h)

/-- A character of the left part of an appended string is in the whole. -/
theorem mem_data_append_left {c : Char} {a : String} (b : String)
    (h : c ∈ a.data) : c ∈ (a ++ b).data := by
  rw [String.data_append]
  exact List.mem_append_left _ h

set_option maxRecDepth 10000 in
/-- No directory symbol, perpetual or spot, contains an underscore, so the
`UNKNOWN_`/`SPOT_` sentinel strings cannot be directory symbols. -/
theorem no_underscore_in_directory :
    (∀ p ∈ ASSET_IDS, '_' ∉ p.1.data) ∧ (∀ p ∈ spot_indices, '_' ∉ p.1.data) :=
  ⟨by decide, by decide⟩

/-!  Claim theorems. -/

/-- C1, counterexample: `validate_action` appends nothing to the action log.
Starting from an empty log, a fully validated (allowed) `place_order` call
leaves the log empty — the claimed per-call log entry does not exist. -/
theorem validate_action_appends_nothing_cex :
    ((validateActionCall defaultPCConfig c1State "0xabc123" "place_order"
        [("size", .pint 100), ("leverage", .pint 2)] ["trading"]).2.actionLog
      = [])
  ∧ (validateActionCall defaultPCConfig c1State "0xabc123" "place_order"
        [("size", .pint 100), ("leverage", .pint 2)] ["trading"]).1.allowed
      = true :=
  ⟨rfl, by decide⟩

/-- C1, amended: `validate_action` itself never changes the controller state
(in particular it appends no action-log entry, whatever the wallet, action,
parameters and permissions and whether the result is allowed or denied); an
entry recording the timestamp, the parameters and the outcome is appended to
the action log only by the separate `log_action` method, which makes that
entry the newest element and caps the log at its 1000 most recent entries. -/
theorem validate_action_pure_and_log_action_records :
    (∀ (cfg : PCConfig) (s : PCState) (wa action : String) (params : Params)
        (perms : List String),
        (validateActionCall cfg s wa action params perms).2 = s)
  ∧ (∀ (now today : String) (s : PCState) (wa action : String)
        (params : Params) (result : ResultDict) (agent : Option String),
        (logAction now today s wa action params result agent).actionLog.getLast?
            = some (mkLogEntry now wa agent action params result)
        ∧ (logAction now today s wa action params result agent).actionLog.length
            = min (s.actionLog.length + 1) 1000) := by
  refine ⟨fun _ _ _ _ _ _ => rfl, ?_⟩
  intro now today s wa action params result agent
  unfold logAction
  simp only []
  split
  · rename_i h
    simp only [List.length_append, List.length_cons, List.length_nil] at h
    constructor
    · unfold takeLast
      rw [List.drop_append_eq_append_drop]
      have h0 : (s.actionLog ++ [mkLogEntry now wa agent action params
          result]).length - 1000 - s.actionLog.length = 0 := by
        simp only [List.length_append, List.length_cons, List.length_nil]
        omega
      rw [h0]
      simp only [List.drop_zero]
      exact List.getLast?_concat _
    · unfold takeLast
      simp only [List.length_drop, List.length_append, List.length_cons,
        List.length_nil]
      omega
  · rename_i h
    simp only [List.length_append, List.length_cons, List.length_nil] at h
    constructor
    · exact List.getLast?_concat _
    · simp only [List.length_append, List.length_cons, List.length_nil]
      omega

/-- C2, counterexample: a withdrawal permitted by the wallet's grants
(`full_access`) with amount 2000 is denied under the default configuration —
`_check_risk_limits` rejects amounts above `max_daily_loss` (1000) — so the
result is not `allowed = true` for every amount. -/
theorem withdraw_large_amount_denied_cex :
    (validateAction defaultPCConfig "0xabc123" "withdraw"
        [("amount", .pint 2000)] ["full_access"]).allowed = false
  ∧ (validateAction defaultPCConfig "0xabc123" "withdraw"
        [("amount", .pint 2000)] ["full_access"]).reason
      = some "Amount $2000 exceeds daily limit $1000.0" :=
  ⟨by decide, by decide⟩

/-- C2, amended: under the default configuration (AI confirmation enabled),
a withdrawal permitted by the wallet's grants whose amount does not exceed
`max_daily_loss` returns `allowed = true` with
`requires_ai_confirmation = true`, independent of the amount within that
bound; a withdrawal whose amount exceeds `max_daily_loss` is denied. -/
theorem withdraw_flags_ai_confirmation :
    (∀ (wa : String) (params : Params) (perms : List String),
        (checkPermissions "withdraw" perms).allowed = true →
        (params.get "amount" (.pint 0)).toQ ≤ defaultPCConfig.maxDailyLoss →
        validateAction defaultPCConfig wa "withdraw" params perms
          = { allowed := true, requiresAi := some true,
              reason := some "Action requires AI confirmation",
              riskLevel := some "high", limits := none })
  ∧ (∀ (wa : String) (params : Params) (perms : List String),
        (params.get "amount" (.pint 0)).toQ > defaultPCConfig.maxDailyLoss →
        (validateAction defaultPCConfig wa "withdraw" params perms).allowed
          = false) := by
  have hrisk_ok : ∀ (params : Params),
      (params.get "amount" (.pint 0)).toQ ≤ defaultPCConfig.maxDailyLoss →
      checkRiskLimits defaultPCConfig "withdraw" params =
        { allowed := true, reason := "Risk limits OK", riskLevel := none } := by
    intro params hamt
    unfold checkRiskLimits
    rw [if_neg (by decide), if_pos (by decide), if_neg (not_lt.mpr hamt)]
  have hrisk_deny : ∀ (params : Params),
      (params.get "amount" (.pint 0)).toQ > defaultPCConfig.maxDailyLoss →
      (checkRiskLimits defaultPCConfig "withdraw" params).allowed = false := by
    intro params hamt
    unfold checkRiskLimits
    rw [if_neg (by decide), if_pos (by decide), if_pos hamt]
  have hai : ∀ (params : Params),
      requiresAiConfirmation defaultPCConfig "withdraw" params = true := by
    intro params
    unfold requiresAiConfirmation
    rw [if_neg (by decide), if_pos (by decide)]
  constructor
  · intro wa params perms hperm hamt
    unfold validateAction
    simp only [hperm, hrisk_ok params hamt, hai params, Bool.not_true,
      Bool.false_eq_true, reduceIte]
  · intro wa params perms hamt
    unfold validateAction
    by_cases hperm : (checkPermissions "withdraw" perms).allowed
    · simp only [hperm, Bool.not_true, Bool.false_eq_true, reduceIte]
      simp only [hrisk_deny params hamt, Bool.not_false, reduceIte]
    · simp only [Bool.not_eq_true] at hperm
      simp only [hperm, Bool.not_false, reduceIte]

/-- C2, witness: `full_access` permits withdrawals; amount 500 is allowed
with the AI-confirmation flag set, amount 5000 is denied. -/
theorem withdraw_flags_ai_confirmation_w :
    (checkPermissions "withdraw" ["full_access"]).allowed = true
  ∧ validateAction defaultPCConfig "0xw" "withdraw" [("amount", .pint 500)]
      ["full_access"]
      = { allowed := true, requiresAi := some true,
          reason := some "Action requires AI confirmation",
          riskLevel := some "high", limits := none }
  ∧ (validateAction defaultPCConfig "0xw" "withdraw" [("amount", .pint 5000)]
      ["full_access"]).allowed = false :=
  ⟨by decide,
   withdraw_flags_ai_confirmation.1 "0xw" [("amount", .pint 500)]
     ["full_access"] (by decide) (by decide),
   withdraw_flags_ai_confirmation.2 "0xw" [("amount", .pint 5000)]
     ["full_access"] (by decide)⟩

/-- C3: the nonces returned by any number of sequential `get_next_nonce`
calls on one engine are strictly increasing, and `reset_nonce(n)` leaves the
counter at least its previous value and strictly above `n` — the counter is
never lowered. -/
theorem nonce_monotonic :
    (∀ (s n : ℕ), (issuedNonces s n).Pairwise (· < ·))
  ∧ (∀ (s nonce : ℕ), s ≤ resetNonce nonce s ∧ nonce < resetNonce nonce s) := by
  constructor
  · intro s n
    induction n generalizing s with
    | zero => simp [issuedNonces]
    | succ n ih =>
      simp only [issuedNonces, getNextNonce, List.pairwise_cons]
      exact ⟨fun x hx => lt_of_lt_of_le (Nat.lt_succ_self s)
        (le_of_mem_issuedNonces hx), ih (s + 1)⟩
  · intro s nonce
    unfold resetNonce
    omega

/-- C4, counterexample: with `trades`/`BTC` tracked at the moment the
connection drops, the successful reconnect (`_handle_reconnect` →
`connect`) sends no frame at all — the outbound trace after reconnect equals
the trace before it, so the subscribe message is not re-sent. -/
theorem reconnect_sends_no_subscribe_cex :
    wsAfterSubscribe.subscriptions = [("trades_BTC", tradesBtcSub)]
  ∧ wsAfterSubscribe.sent
      = [{ method := "subscribe", subscription := tradesBtcSub }]
  ∧ wsAfterReconnect.connected = true
  ∧ wsAfterReconnect.sent = wsAfterSubscribe.sent :=
  ⟨by decide, by decide, by decide, by decide⟩

/-- C4, amended: a drop followed by a successful reconnect preserves the
tracked subscription set unchanged — so the caller can replay it — but sends
no subscribe frames itself; re-subscribing requires caller intervention. -/
theorem reconnect_preserves_but_does_not_resubscribe :
    ∀ (maxReconnects : ℕ) (s : WsState),
      (wsConnectionDrop maxReconnects s).sent = s.sent
      ∧ (wsConnectionDrop maxReconnects s).subscriptions = s.subscriptions := by
  intro maxR s
  unfold wsConnectionDrop wsHandleReconnect wsConnectOk
  split <;> simp

set_option maxRecDepth 10000 in
/-- C5: over the directory as Python builds it (last value per duplicated
key), `get_asset_id` and `get_symbol_from_asset_id` are mutual inverses:
on every id that is a value of `ASSET_IDS` and every spot id
(offset + spot index), and on every directory symbol, perpetual and spot. -/
theorem asset_directory_round_trip :
    (ASSET_IDS.all fun p =>
        get_asset_id (get_symbol_from_asset_id p.2) false == p.2) = true
  ∧ (ASSET_IDS.all fun p =>
        get_symbol_from_asset_id (get_asset_id p.1 false) == p.1) = true
  ∧ (spot_indices.all fun p =>
        get_asset_id (get_symbol_from_asset_id (SPOT_ASSET_OFFSET + p.2)) true
          == SPOT_ASSET_OFFSET + p.2) = true
  ∧ (spot_indices.all fun p =>
        get_symbol_from_asset_id (get_asset_id p.1 true) == p.1) = true :=
  ⟨by decide, by decide, by decide, by decide⟩

set_option maxRecDepth 10000 in
/-- C6, counterexample: the unknown-symbol sentinel is not distinguishable
from known ids — `get_asset_id` maps the unknown symbol `NOTACOIN` to 0,
which is exactly `BTC`'s asset id. -/
theorem unknown_symbol_sentinel_collides_cex :
    get_asset_id "NOTACOIN" false = 0
  ∧ get_asset_id "BTC" false = 0
  ∧ (ASSET_IDS.all fun p => p.1 != "NOTACOIN") = true
  ∧ ("BTC", 0) ∈ ASSET_IDS :=
  ⟨by decide, by decide, by decide, by decide⟩

set_option maxRecDepth 10000 in
/-- C6, amended: `get_asset_id` never throws but maps every unknown
perpetual symbol to the default id 0 (`BTC`'s id) and every unknown spot
symbol to the offset 10000 (`PURR/USDC`'s id) — values that collide with
known assets; `get_symbol_from_asset_id` maps every unknown id to an
`UNKNOWN_<id>` / `SPOT_<index>` sentinel string that differs from every
directory symbol. -/
theorem unknown_lookup_sentinel_defaults :
    (∀ sym : String, (∀ p ∈ ASSET_IDS, p.1 ≠ pyUpper sym) →
        get_asset_id sym false = 0)
  ∧ (∀ sym : String, (∀ p ∈ spot_indices, p.1 ≠ sym) →
        get_asset_id sym true = SPOT_ASSET_OFFSET)
  ∧ (∀ id : ℕ, id < SPOT_ASSET_OFFSET → (∀ p ∈ ASSET_IDS, p.2 ≠ id) →
        get_symbol_from_asset_id id = "UNKNOWN_" ++ toString id)
  ∧ (∀ id : ℕ, SPOT_ASSET_OFFSET ≤ id →
        (∀ p ∈ spot_symbols, p.1 ≠ id - SPOT_ASSET_OFFSET) →
        get_symbol_from_asset_id id
          = "SPOT_" ++ toString (id - SPOT_ASSET_OFFSET))
  ∧ (∀ n : ℕ,
        (∀ p ∈ ASSET_IDS, p.1 ≠ "UNKNOWN_" ++ toString n)
        ∧ (∀ p ∈ spot_indices, p.1 ≠ "UNKNOWN_" ++ toString n)
        ∧ (∀ p ∈ ASSET_IDS, p.1 ≠ "SPOT_" ++ toString n)
        ∧ (∀ p ∈ spot_indices, p.1 ≠ "SPOT_" ++ toString n)) := by
  refine ⟨?_, ?_, ?_, ?_, ?_⟩
  · intro sym h
    have hfind : ASSET_IDS.find? (fun p => p.1 == pyUpper sym) = none :=
      List.find?_eq_none.mpr (fun x hx => by simpa using h x hx)
    simp [get_asset_id, pyDictGet, hfind]
  · intro sym h
    have hfind : spot_indices.find? (fun p => p.1 == sym) = none :=
      List.find?_eq_none.mpr (fun x hx => by simpa using h x hx)
    simp [get_asset_id, pyDictGet, hfind, SPOT_ASSET_OFFSET]
  · intro id hlt h
    have hfind : ASSET_IDS.find? (fun p => p.2 == id) = none :=
      List.find?_eq_none.mpr (fun x hx => by simpa using h x hx)
    simp [get_symbol_from_asset_id, hfind, Nat.not_le.mpr hlt]
  · intro id hge h
    have hfind : spot_symbols.find?
        (fun p => p.1 == id - SPOT_ASSET_OFFSET) = none :=
      List.find?_eq_none.mpr (fun x hx => by simpa using h x hx)
    simp [get_symbol_from_asset_id, hfind, hge]
  · intro n
    refine ⟨?_, ?_, ?_, ?_⟩ <;>
      · intro p hp heq
        first
          | exact no_underscore_in_directory.1 p hp
              (heq ▸ mem_data_append_left _ (by decide))
          | exact no_underscore_in_directory.2 p hp
              (heq ▸ mem_data_append_left _ (by decide))

set_option maxRecDepth 10000 in
/-- C6, witness: a concrete unknown perpetual symbol, spot symbol, perpetual
id and spot id each hit their sentinel value. -/
theorem unknown_lookup_sentinel_defaults_w :
    get_asset_id "newcoin" false = 0
  ∧ get_asset_id "NEW/USDC" true = SPOT_ASSET_OFFSET
  ∧ get_symbol_from_asset_id 9999 = "UNKNOWN_" ++ toString 9999
  ∧ get_symbol_from_asset_id 10777
      = "SPOT_" ++ toString (10777 - SPOT_ASSET_OFFSET) :=
  ⟨unknown_lookup_sentinel_defaults.1 "newcoin" (by decide),
   unknown_lookup_sentinel_defaults.2.1 "NEW/USDC" (by decide),
   unknown_lookup_sentinel_defaults.2.2.1 9999 (by decide) (by decide),
   unknown_lookup_sentinel_defaults.2.2.2.1 10777 (by decide) (by decide)⟩

/-- C7: the spec's scenario — grants `["trading"]`, default
`max_total_exposure` 50000, `place_order` with size 20000 and leverage 3 —
is denied with the reason citing the 60000 exposure against the 50000
limit; and in general every `place_order`/`modify_order` whose
`size * leverage` exceeds `max_total_exposure` is denied. -/
theorem exposure_limit_denies :
    (validateAction defaultPCConfig "0xabc123" "place_order"
        [("size", .pint 20000), ("leverage", .pint 3)] ["trading"]
      = { allowed := false, requiresAi := none,
          reason := some "Position size $60000 exceeds limit $50000.0",
          riskLevel := some "high", limits := none })
  ∧ (∀ (cfg : PCConfig) (wa action : String) (params : Params)
        (perms : List String),
        (action = "place_order" ∨ action = "modify_order") →
        ((params.get "size" (.pint 0)).mul
            (params.get "leverage" (.pint 1))).toQ > cfg.maxTotalExposure →
        (validateAction cfg wa action params perms).allowed = false) := by
  constructor
  · decide
  · intro cfg wa action params perms haction hexp
    have hcond : (action == "place_order" || action == "modify_order") = true := by
      rcases haction with h | h <;> simp [h]
    have hrisk : (checkRiskLimits cfg action params).allowed = false := by
      unfold checkRiskLimits
      rw [if_pos hcond, if_pos hexp]
    unfold validateAction
    by_cases hperm : (checkPermissions action perms).allowed
    · simp only [hperm, Bool.not_true, Bool.false_eq_true, reduceIte]
      simp only [hrisk, Bool.not_false, reduceIte]
    · simp only [Bool.not_eq_true] at hperm
      simp only [hperm, Bool.not_false, reduceIte]

/-- C7, witness: the general exposure bound applied to a concrete
`modify_order` whose exposure 60000 exceeds the default 50000 limit. -/
theorem exposure_limit_denies_w :
    ((Params.get [("size", PyNum.pint 20000), ("leverage", PyNum.pint 3)]
          "size" (.pint 0)).mul
        (Params.get [("size", PyNum.pint 20000), ("leverage", PyNum.pint 3)]
          "leverage" (.pint 1))).toQ
      > defaultPCConfig.maxTotalExposure
  ∧ (validateAction defaultPCConfig "0xw" "modify_order"
      [("size", PyNum.pint 20000), ("leverage", PyNum.pint 3)] []).allowed
      = false :=
  ⟨by decide,
   exposure_limit_denies.2 defaultPCConfig "0xw" "modify_order"
     [("size", PyNum.pint 20000), ("leverage", PyNum.pint 3)] []
     (Or.inr rfl) (by decide)⟩

/-- C8: `create_order_action` is a pure function producing exactly the
canonical wire shape `{"type": "order", "orders": [o], "grouping": "na"}`
with `o` under the abbreviated field names `a`, `b`, `p`, `s`, `r`, `t`
and price and size rendered as strings, for every input. -/
theorem create_order_action_canonical :
    ∀ (asset_id : ℤ) (is_buy : Bool) (price size : PyNum)
      (reduce_only : Bool) (time_in_force : String),
      create_order_action asset_id is_buy price size reduce_only time_in_force
        = canonicalOrderAction asset_id is_buy price size reduce_only
            time_in_force :=
  fun _ _ _ _ _ _ => rfl

/-- C9: a freshly registered wallet satisfies the activity-log caps; every
sequence of `log_wallet_activity` calls preserves them (at most the 100 most
recent approved and 50 most recent blocked entries); and each single logging
operation re-establishes the cap of the log it appends to, whatever its
previous size. -/
theorem wallet_activity_logs_bounded :
    activityBounded registerWalletEntry
  ∧ (∀ (w : WalletEntry) (calls : List ActivityCall), activityBounded w →
      activityBounded (runActivityCalls w calls))
  ∧ (∀ (now : String) (w : WalletEntry) (action : String)
      (details : List (String × String)),
      (logWalletActivity now w action true details).approvedActions.length ≤ 100
      ∧ (logWalletActivity now w action false details).blockedActions.length
          ≤ 50) := by
  refine ⟨by decide, fun w calls h => runActivityCalls_bounded calls w h, ?_⟩
  intro now w action details
  constructor
  · unfold logWalletActivity
    simp only [reduceIte]
    split
    · exact takeLast_length_le _ _
    · simp only [List.length_append, List.length_cons, List.length_nil] at *
      omega
  · unfold logWalletActivity
    simp only [Bool.false_eq_true, reduceIte]
    split
    · exact takeLast_length_le _ _
    · simp only [List.length_append, List.length_cons, List.length_nil] at *
      omega

/-- C9, witness: the caps hold after a concrete approved-then-blocked
activity sequence on a freshly registered wallet. -/
theorem wallet_activity_logs_bounded_w :
    activityBounded (runActivityCalls registerWalletEntry
      [{ now := "2026-02-03T10:00:00", action := "place_order",
         success := true, details := [] },
       { now := "2026-02-03T10:00:01", action := "withdraw",
         success := false, details := [] }]) :=
  wallet_activity_logs_bounded.2.1 registerWalletEntry _ (by decide)

/-- C10: the module-level `sign_user_action` and `sign_l1_action` are the
identical function — for every serialization/hash primitive, action,
account and nonce they build the same `{"action", "nonce"}` message, hash
it identically, and return equal `{"hash", "signature", "sender"}`
dictionaries. -/
theorem sign_user_eq_sign_l1 :
    ∀ (prims : SigningPrims) (action : PyVal) (account : EthAccount)
      (nonce : ℤ),
      sign_user_action prims action account nonce
          = sign_l1_action prims action account nonce
      ∧ sign_user_action prims action account nonce
          = [("hash", bytesHex (userActionHash prims action nonce)),
             ("signature", bytesHex (account.signMessage
                (userActionHash prims action nonce))),
             ("sender", account.address)] :=
  fun _ _ _ _ => ⟨rfl, rfl⟩
